import Mathlib

/-!
Verification of the EdgeNudge browser inference pipeline
(src/frontend/app.js), shallowly embedded in Lean 4.

JavaScript numbers are modelled as exact rationals; boolean widget
toggles as Bool; the DOM widget state as an explicit structure; the
external ONNX session as a Bool flag plus a parameter giving the
engine's outcome; user-facing alerts on failure paths as error results.
-/

namespace EdgeNudge

/-- Backing state of the six input widgets
(hourInput, dayInput, lightInput, tempInput, pirInput, phoneInput). -/
structure WidgetState where
  hourInput : ℚ
  dayInput : ℚ
  lightInput : ℚ
  tempInput : ℚ
  pirInput : Bool
  phoneInput : Bool
  deriving DecidableEq, Repr

/-- Result of getSensorValues: six numeric values, checkbox booleans
already coerced to 1.0 / 0.0. -/
structure SensorValues where
  hour : ℚ
  day_of_week : ℚ
  ambient_light : ℚ
  pir_motion : ℚ
  phone_presence : ℚ
  temperature : ℚ
  deriving DecidableEq, Repr

/-- getSensorValues from app.js: reads the six widget values, coercing
the two checkboxes with (checked ? 1.0 : 0.0). -/
def getSensorValues (w : WidgetState) : SensorValues :=
  { hour := w.hourInput
    day_of_week := w.dayInput
    ambient_light := w.lightInput
    pir_motion := if w.pirInput then 1 else 0
    phone_presence := if w.phoneInput then 1 else 0
    temperature := w.tempInput }

/-- Model of an ort.Tensor: dtype string, flat data, dims. -/
structure OrtTensor where
  dtype : String
  data : List ℚ
  dims : List Nat
  deriving DecidableEq, Repr

/-- The input tensor built in runPrediction: Float32Array of the six
sensor values in training feature order, wrapped with shape [1, 6]. -/
def inputTensor (s : SensorValues) : OrtTensor :=
  { dtype := "float32"
    data := [s.hour, s.day_of_week, s.ambient_light,
             s.pir_motion, s.phone_presence, s.temperature]
    dims := [1, 6] }

/-- SavingsEstimate as returned by calculateEnergySavings. -/
structure SavingsEstimate where
  lightsKwh : ℚ
  fanKwh : ℚ
  acKwh : ℚ
  totalKwh : ℚ
  totalCost : ℚ
  co2Saved : ℚ
  treesEquiv : ℚ
  hoursEmpty : ℚ
  deriving DecidableEq, Repr

/-- calculateEnergySavings from app.js: fixed power ratings
(10 W lights, 75 W fan, 500 W AC), a fixed 2-hour empty window,
thresholded kWh terms, then cost, CO2 and tree-equivalent constants. -/
def calculateEnergySavings (sensors : SensorValues) : SavingsEstimate :=
  let LIGHTS_POWER : ℚ := 10
  let FAN_POWER : ℚ := 75
  let AC_POWER : ℚ := 500
  let hoursEmpty : ℚ := 2
  let lightsKwh : ℚ :=
    if sensors.ambient_light > 300 then (LIGHTS_POWER * hoursEmpty) / 1000 else 0
  let fanKwh : ℚ :=
    if sensors.temperature > 24 then (FAN_POWER * hoursEmpty) / 1000 else 0
  let acKwh : ℚ :=
    if sensors.temperature > 25 then (AC_POWER * hoursEmpty) / 1000 else 0
  let totalKwh : ℚ := lightsKwh + fanKwh + acKwh
  let costPerKwh : ℚ := 12 / 100
  let totalCost : ℚ := totalKwh * costPerKwh
  let co2PerKwh : ℚ := 92 / 100
  let co2Saved : ℚ := totalKwh * co2PerKwh * (453592 / 1000000)
  let treesEquiv : ℚ := co2Saved / (575 / 10000)
  { lightsKwh := lightsKwh
    fanKwh := fanKwh
    acKwh := acKwh
    totalKwh := totalKwh
    totalCost := totalCost
    co2Saved := co2Saved
    treesEquiv := treesEquiv
    hoursEmpty := hoursEmpty }

/-- Outcome of generateEnergyNudge: the estimate the energy-savings
path computes (none on the occupied path), and whether the
energy-summary container is shown. -/
structure NudgeOutput where
  estimate : Option SavingsEstimate
  summaryVisible : Bool
  deriving DecidableEq, Repr

/-- generateEnergyNudge from app.js: when the raw prediction equals 1
(occupied) it renders the in-use card and hides the summary; otherwise
it calls calculateEnergySavings and shows the summary. -/
def generateEnergyNudge (prediction : ℤ) (sensors : SensorValues) : NudgeOutput :=
  let isOccupied := prediction = 1
  if isOccupied then
    { estimate := none, summaryVisible := false }
  else
    { estimate := some (calculateEnergySavings sensors), summaryVisible := true }

/-- Occupancy text chosen in displayResults: label === 1 maps to
OCCUPIED, anything else to EMPTY. -/
def statusText (label : ℤ) : String :=
  let isOccupied := label = 1
  if isOccupied then "OCCUPIED" else "EMPTY"

/-- RunningMetrics: the global predictionCount and totalLatency
counters. -/
structure RunningMetrics where
  predictionCount : ℕ
  totalLatency : ℚ
  deriving DecidableEq, Repr

/-- updatePerformanceMetrics from app.js: predictionCount++ and
totalLatency += latency. -/
def updatePerformanceMetrics (m : RunningMetrics) (latency : ℚ) : RunningMetrics :=
  { predictionCount := m.predictionCount + 1
    totalLatency := m.totalLatency + latency }

/-- The avgLatency displayed by updatePerformanceMetrics:
totalLatency / predictionCount. -/
def avgLatency (m : RunningMetrics) : ℚ :=
  m.totalLatency / (m.predictionCount : ℚ)

/-- PredictionResult: raw label from the ONNX output and the measured
wall-clock latency. -/
structure PredictionResult where
  label : ℤ
  latencyMs : ℚ
  deriving DecidableEq, Repr

/-- Failure modes of runPrediction: the early bail-out alert when the
ONNX session is not yet created, and the catch-all alert when the
engine throws. -/
inductive PredError where
  | modelNotLoaded : PredError
  | inferenceError : PredError
  deriving DecidableEq, Repr

/-- runPrediction from app.js. sessionLoaded models whether the global
session is non-null; outcome models what the external engine does when
invoked: some (label, latency) on success, none when session.run
throws. On success displayResults runs updatePerformanceMetrics; both
failure paths alert and return, leaving the metrics untouched. -/
def runPrediction (sessionLoaded : Bool) (m : RunningMetrics)
    (outcome : Option (ℤ × ℚ)) : RunningMetrics × Except PredError PredictionResult :=
  if !sessionLoaded then
    (m, Except.error PredError.modelNotLoaded)
  else
    match outcome with
    | none => (m, Except.error PredError.inferenceError)
    | some (label, latency) =>
        (updatePerformanceMetrics m latency,
         Except.ok { label := label, latencyMs := latency })

/-- Folding a list of successful engine outcomes (label, latency pairs)
through runPrediction with the session loaded. -/
def runSuccesses (m : RunningMetrics) : List (ℤ × ℚ) → RunningMetrics
  | [] => m
  | (label, latency) :: rest =>
      runSuccesses (runPrediction true m (some (label, latency))).1 rest

/-- Campus-wide projection computed inside displayEnergySummary. -/
structure CampusProjection where
  dailySavingsPerRoom : ℚ
  monthlySavings : ℚ
  annualSavings : ℚ
  annualCO2 : ℚ
  deriving DecidableEq, Repr

/-- The projection arithmetic of displayEnergySummary: 100 rooms,
30 days/month, 365 days/year, optimization rate 0.3, 4 predictions per
day. -/
def campusProjection (savings : SavingsEstimate) : CampusProjection :=
  let roomsCount : ℚ := 100
  let daysPerMonth : ℚ := 30
  let daysPerYear : ℚ := 365
  let optimizationRate : ℚ := 3 / 10
  let predictionsPerDay : ℚ := 4
  let dailySavingsPerRoom : ℚ := savings.totalKwh * predictionsPerDay * optimizationRate
  let monthlySavings : ℚ := dailySavingsPerRoom * roomsCount * daysPerMonth
  let annualSavings : ℚ := dailySavingsPerRoom * roomsCount * daysPerYear
  let annualCO2 : ℚ :=
    savings.co2Saved * predictionsPerDay * optimizationRate * roomsCount * daysPerYear
  { dailySavingsPerRoom := dailySavingsPerRoom
    monthlySavings := monthlySavings
    annualSavings := annualSavings
    annualCO2 := annualCO2 }

/-- The ordered list of auto-demo scenarios. -/
def demoScenarios : List String := ["empty", "morning", "evening", "weekend"]

/-- Scenario-player state: whether the interval timer is active
(autoDemoInterval non-null) and the currentDemoStep counter. -/
structure DemoState where
  running : Bool
  currentDemoStep : ℕ
  deriving DecidableEq, Repr

/-- The three events driving the scenario player: the start button, an
interval-timer tick, and the stop button. -/
inductive DemoEvent where
  | start : DemoEvent
  | tick : DemoEvent
  | stop : DemoEvent
  deriving DecidableEq, Repr

/-- One step of the scenario player, returning the new state and the
preset name fired, if any. start (startAutoDemo) resets the step to 0,
fires scenario 0 immediately and increments; tick (the 7000 ms interval
callback) fires scenario currentDemoStep and increments when the step
is below the list length, otherwise loops back to 0, fires scenario 0
and increments; stop (stopAutoDemo) clears the interval and resets the
step to 0. -/
def demoStep : DemoState → DemoEvent → DemoState × Option String
  | _, DemoEvent.start =>
      ({ running := true, currentDemoStep := 1 }, demoScenarios.get? 0)
  | s, DemoEvent.tick =>
      if s.running then
        if s.currentDemoStep < demoScenarios.length then
          ({ running := true, currentDemoStep := s.currentDemoStep + 1 },
           demoScenarios.get? s.currentDemoStep)
        else
          ({ running := true, currentDemoStep := 1 }, demoScenarios.get? 0)
      else (s, none)
  | _, DemoEvent.stop =>
      ({ running := false, currentDemoStep := 0 }, none)

/-- The player state after starting from idle and receiving n timer
ticks. -/
def afterTicks : ℕ → DemoState
  | 0 => (demoStep { running := false, currentDemoStep := 0 } DemoEvent.start).1
  | n + 1 => (demoStep (afterTicks n) DemoEvent.tick).1

/-- The preset fired at step n of a started demo: step 0 is the
synchronous firing at start, step n+1 the n+1st timer tick. -/
def firedAt : ℕ → Option String
  | 0 => (demoStep { running := false, currentDemoStep := 0 } DemoEvent.start).2
  | n + 1 => (demoStep (afterTicks n) DemoEvent.tick).2

/-- Preset definitions from app.js (the presets object); lookup by
name, none for unknown names. -/
structure Preset where
  hour : ℚ
  day : ℚ
  light : ℚ
  temp : ℚ
  pir : Bool
  phone : Bool
  name : String
  deriving DecidableEq, Repr

/-- The presets object lookup: the four named scenarios, none
otherwise. -/
def presets (presetName : String) : Option Preset :=
  if presetName = "empty" then
    some { hour := 2, day := 1, light := 15, temp := 20,
           pir := false, phone := false, name := "Late Night (Empty)" }
  else if presetName = "morning" then
    some { hour := 9, day := 2, light := 550, temp := 23,
           pir := true, phone := true, name := "Morning Class (Occupied)" }
  else if presetName = "evening" then
    some { hour := 20, day := 3, light := 600, temp := 47 / 2,
           pir := true, phone := true, name := "Evening Study (Occupied)" }
  else if presetName = "weekend" then
    some { hour := 8, day := 5, light := 200, temp := 41 / 2,
           pir := false, phone := false, name := "Weekend Morning (Empty)" }
  else none

/-- applyPreset from app.js: unknown names return immediately; known
names overwrite the six widgets and schedule a prediction via
setTimeout. The Bool records whether a prediction was scheduled. -/
def applyPreset (w : WidgetState) (presetName : String) : WidgetState × Bool :=
  match presets presetName with
  | none => (w, false)
  | some p =>
      ({ hourInput := p.hour, dayInput := p.day, lightInput := p.light,
         tempInput := p.temp, pirInput := p.pir, phoneInput := p.phone }, true)

end EdgeNudge

namespace EdgeNudge

/-- Claim C1: for every prediction run, the tensor handed to the ONNX
session is a float32 tensor of shape [1,6] whose data is exactly
[hour, dayOfWeek, ambientLight, pirMotion, phonePresence, temperature],
with the checkbox booleans coerced to 1.0 / 0.0 and the four numeric
widget values passed through unchanged. -/
theorem input_tensor_order (w : WidgetState) :
    inputTensor (getSensorValues w) =
      { dtype := "float32"
        data := [w.hourInput, w.dayInput, w.lightInput,
                 (if w.pirInput then (1 : ℚ) else 0),
                 (if w.phoneInput then (1 : ℚ) else 0),
                 w.tempInput]
        dims := [1, 6] } := rfl

/-- Claim C3: for every sensor reading, the estimate satisfies
totalKwh = lightsKwh + fanKwh + acKwh exactly. -/
theorem totalKwh_is_component_sum (s : SensorValues) :
    (calculateEnergySavings s).totalKwh =
      (calculateEnergySavings s).lightsKwh + (calculateEnergySavings s).fanKwh +
        (calculateEnergySavings s).acKwh := rfl

/-- Claim C2: the estimator computes exactly the documented formulas
(thresholded kWh terms over a fixed 2-hour window, cost at 0.12 USD/kWh,
CO2 at 0.92 lb/kWh converted by 0.453592 kg/lb, trees at 0.0575 kg each);
in particular ambientLight = 400 with temperature = 26 yields
lightsKwh = 0.02, fanKwh = 0.15, acKwh = 1.0, totalKwh = 1.17, and
ambientLight = 15 with temperature = 20 yields all four kWh fields 0. -/
theorem energy_estimator_formulas :
    (∀ s : SensorValues,
      (calculateEnergySavings s).lightsKwh =
        (if s.ambient_light > 300 then (10 * 2 : ℚ) / 1000 else 0) ∧
      (calculateEnergySavings s).fanKwh =
        (if s.temperature > 24 then (75 * 2 : ℚ) / 1000 else 0) ∧
      (calculateEnergySavings s).acKwh =
        (if s.temperature > 25 then (500 * 2 : ℚ) / 1000 else 0) ∧
      (calculateEnergySavings s).totalCost =
        (calculateEnergySavings s).totalKwh * (12 / 100) ∧
      (calculateEnergySavings s).co2Saved =
        (calculateEnergySavings s).totalKwh * (92 / 100) * (453592 / 1000000) ∧
      (calculateEnergySavings s).treesEquiv =
        (calculateEnergySavings s).co2Saved / (575 / 10000) ∧
      (calculateEnergySavings s).hoursEmpty = 2) ∧
    (∀ s : SensorValues, s.ambient_light = 400 → s.temperature = 26 →
      (calculateEnergySavings s).lightsKwh = 2 / 100 ∧
      (calculateEnergySavings s).fanKwh = 15 / 100 ∧
      (calculateEnergySavings s).acKwh = 1 ∧
      (calculateEnergySavings s).totalKwh = 117 / 100) ∧
    (∀ s : SensorValues, s.ambient_light = 15 → s.temperature = 20 →
      (calculateEnergySavings s).lightsKwh = 0 ∧
      (calculateEnergySavings s).fanKwh = 0 ∧
      (calculateEnergySavings s).acKwh = 0 ∧
      (calculateEnergySavings s).totalKwh = 0) := by
  refine ⟨fun s => ⟨rfl, rfl, rfl, rfl, rfl, rfl, rfl⟩, ?_, ?_⟩
  · intro s hl ht
    simp only [calculateEnergySavings, hl, ht]
    norm_num
  · intro s hl ht
    simp only [calculateEnergySavings, hl, ht]
    norm_num

/-- Witness for C2 at the morning-like reading with ambientLight 400 and
temperature 26: totalKwh evaluates to 1.17. -/
theorem energy_estimator_formulas_witness :
    (calculateEnergySavings ⟨9, 2, 400, 1, 1, 26⟩).totalKwh = 117 / 100 :=
  (energy_estimator_formulas.2.1 ⟨9, 2, 400, 1, 1, 26⟩ rfl rfl).2.2.2

/-- Claim C4: when the predicted raw label is 1 (OCCUPIED),
generateEnergyNudge computes no SavingsEstimate and does not take the
savings-summary path. -/
theorem estimator_not_invoked_when_occupied (s : SensorValues) :
    generateEnergyNudge 1 s = { estimate := none, summaryVisible := false } := by
  simp [generateEnergyNudge]

/-- Claim C7: invoking runPrediction before the session exists fails
with the model-not-loaded error: whatever the engine would have done,
no PredictionResult is produced and the metrics are unchanged. -/
theorem predict_before_model_loaded (m : RunningMetrics) (outcome : Option (ℤ × ℚ)) :
    runPrediction false m outcome = (m, Except.error PredError.modelNotLoaded) := rfl

/-- The fold of successful predictions adds the number of runs to the
count and the latency sum to the total. -/
lemma runSuccesses_spec (ls : List (ℤ × ℚ)) (m : RunningMetrics) :
    runSuccesses m ls =
      { predictionCount := m.predictionCount + ls.length
        totalLatency := m.totalLatency + (ls.map Prod.snd).sum } := by
  induction ls generalizing m with
  | nil => cases m; simp [runSuccesses]
  | cons p rest ih =>
      obtain ⟨label, latency⟩ := p
      rw [runSuccesses, ih]
      simp [runPrediction, updatePerformanceMetrics, RunningMetrics.mk.injEq]
      constructor
      · omega
      · ring

/-- Claim C6: RunningMetrics is updated exactly on successful
predictions: a failed engine call leaves the metrics unchanged with no
result and no retry, each success increments the count and adds its
latency, and after N successful predictions from a fresh session the
displayed average latency is exactly sum(latencies)/N. -/
theorem metrics_updated_iff_success :
    (∀ m : RunningMetrics,
        runPrediction true m none = (m, Except.error PredError.inferenceError)) ∧
    (∀ (m : RunningMetrics) (label : ℤ) (latency : ℚ),
        runPrediction true m (some (label, latency)) =
          (updatePerformanceMetrics m latency,
           Except.ok { label := label, latencyMs := latency })) ∧
    (∀ ls : List (ℤ × ℚ),
        (runSuccesses ⟨0, 0⟩ ls).predictionCount = ls.length ∧
        (runSuccesses ⟨0, 0⟩ ls).totalLatency = (ls.map Prod.snd).sum) ∧
    (∀ ls : List (ℤ × ℚ), ls ≠ [] →
        avgLatency (runSuccesses ⟨0, 0⟩ ls) =
          (ls.map Prod.snd).sum / (ls.length : ℚ)) := by
  refine ⟨fun m => rfl, fun m label latency => rfl, ?_, ?_⟩
  · intro ls
    rw [runSuccesses_spec]
    simp
  · intro ls _
    rw [avgLatency, runSuccesses_spec]
    simp

/-- Witness for C6 after two successful predictions with latencies 3 ms
and 5 ms: the average latency is exactly 4 ms. -/
theorem metrics_updated_iff_success_witness :
    avgLatency (runSuccesses ⟨0, 0⟩ [((0 : ℤ), (3 : ℚ)), (1, 5)]) = 4 := by
  have h := metrics_updated_iff_success.2.2.2 [((0 : ℤ), (3 : ℚ)), (1, 5)] (by simp)
  rw [h]
  norm_num

/-- Claim C9: the pipeline treats raw label 1 as OCCUPIED and every
other raw label (0, but also out-of-range values such as 2 or -1) as
EMPTY, taking the energy-savings path with no rejection. -/
theorem label_mapping (label : ℤ) (s : SensorValues) :
    (label = 1 → statusText label = "OCCUPIED" ∧
      (generateEnergyNudge label s).estimate = none) ∧
    (label ≠ 1 → statusText label = "EMPTY" ∧
      (generateEnergyNudge label s).estimate = some (calculateEnergySavings s) ∧
      (generateEnergyNudge label s).summaryVisible = true) := by
  constructor
  · intro h
    subst h
    exact ⟨rfl, by simp [generateEnergyNudge]⟩
  · intro h
    refine ⟨?_, ?_, ?_⟩ <;> simp [statusText, generateEnergyNudge, h]

/-- Witness for C9 at the out-of-range label 2: it is rendered EMPTY
and the savings path runs. -/
theorem label_mapping_witness :
    statusText 2 = "EMPTY" ∧
    (generateEnergyNudge 2 ⟨2, 1, 15, 0, 0, 20⟩).estimate =
      some (calculateEnergySavings ⟨2, 1, 15, 0, 0, 20⟩) := by
  have h := (label_mapping 2 ⟨2, 1, 15, 0, 0, 20⟩).2 (by decide)
  exact ⟨h.1, h.2.1⟩

/-- A started player that has seen n ticks is running with
currentDemoStep equal to n % 4 + 1. -/
lemma afterTicks_eq (n : ℕ) :
    afterTicks n = { running := true, currentDemoStep := n % 4 + 1 } := by
  induction n with
  | zero => rfl
  | succ n ih =>
      have h : afterTicks (n + 1) = (demoStep (afterTicks n) DemoEvent.tick).1 := rfl
      rw [h, ih]
      by_cases hlt : n % 4 + 1 < 4
      · simp [demoStep, demoScenarios, hlt, DemoState.mk.injEq]
        omega
      · simp [demoStep, demoScenarios, hlt, DemoState.mk.injEq]
        omega

/-- Claim C5: once started, the player fires presets in the fixed
cyclic order empty, morning, evening, weekend, empty, ... : the preset
fired at step n is demoScenarios[n % 4], with step 0 fired immediately
on start; stopping from any state cancels the timer and resets the
index to 0, and restarting after a stop fires the empty preset
again. -/
theorem scenario_player_cycle :
    (∀ n : ℕ, firedAt n = demoScenarios.get? (n % 4)) ∧
    (∀ s : DemoState, demoStep s DemoEvent.stop =
        ({ running := false, currentDemoStep := 0 }, none)) ∧
    (∀ s : DemoState,
        demoStep (demoStep s DemoEvent.stop).1 DemoEvent.start =
          ({ running := true, currentDemoStep := 1 }, some "empty")) := by
  refine ⟨?_, fun s => rfl, fun s => rfl⟩
  intro n
  cases n with
  | zero => rfl
  | succ n =>
      have h : firedAt (n + 1) = (demoStep (afterTicks n) DemoEvent.tick).2 := rfl
      by_cases hlt : n % 4 + 1 < 4
      · have h4 : (n + 1) % 4 = n % 4 + 1 := by omega
        rw [h, afterTicks_eq, h4]
        simp [demoStep, demoScenarios, hlt]
      · have h4 : (n + 1) % 4 = 0 := by omega
        rw [h, afterTicks_eq, h4]
        simp [demoStep, demoScenarios, hlt]

/-- co2Saved of any computed estimate is totalKwh scaled by the fixed
CO2 constants. -/
lemma calc_co2Saved (s : SensorValues) :
    (calculateEnergySavings s).co2Saved =
      (calculateEnergySavings s).totalKwh * (92 / 100) * (453592 / 1000000) := rfl

/-- Claim C8: the campus projection computed from an estimate is
dailyPerRoom = totalKwh*4*0.3, monthly = dailyPerRoom*100*30,
annual = dailyPerRoom*100*365, annualCO2 = co2SavedKg*4*0.3*100*365,
and over computed estimates every projected quantity is monotonic in
totalKwh. -/
theorem campus_projection_monotone :
    (∀ e : SavingsEstimate,
        campusProjection e =
          { dailySavingsPerRoom := e.totalKwh * 4 * (3 / 10)
            monthlySavings := e.totalKwh * 4 * (3 / 10) * 100 * 30
            annualSavings := e.totalKwh * 4 * (3 / 10) * 100 * 365
            annualCO2 := e.co2Saved * 4 * (3 / 10) * 100 * 365 }) ∧
    (∀ s₁ s₂ : SensorValues,
        (calculateEnergySavings s₁).totalKwh ≤ (calculateEnergySavings s₂).totalKwh →
        (campusProjection (calculateEnergySavings s₁)).dailySavingsPerRoom ≤
          (campusProjection (calculateEnergySavings s₂)).dailySavingsPerRoom ∧
        (campusProjection (calculateEnergySavings s₁)).monthlySavings ≤
          (campusProjection (calculateEnergySavings s₂)).monthlySavings ∧
        (campusProjection (calculateEnergySavings s₁)).annualSavings ≤
          (campusProjection (calculateEnergySavings s₂)).annualSavings ∧
        (campusProjection (calculateEnergySavings s₁)).annualCO2 ≤
          (campusProjection (calculateEnergySavings s₂)).annualCO2) := by
  refine ⟨fun e => rfl, ?_⟩
  intro s₁ s₂ h
  refine ⟨?_, ?_, ?_, ?_⟩ <;>
    simp only [campusProjection, calc_co2Saved] <;> linarith

/-- Witness for C8: the all-off reading (totalKwh 0) projects no more
monthly savings than the hot bright reading (totalKwh 1.17). -/
theorem campus_projection_monotone_witness :
    (campusProjection (calculateEnergySavings ⟨2, 1, 15, 0, 0, 20⟩)).monthlySavings ≤
      (campusProjection (calculateEnergySavings ⟨9, 2, 400, 1, 1, 26⟩)).monthlySavings :=
  (campus_projection_monotone.2 ⟨2, 1, 15, 0, 0, 20⟩ ⟨9, 2, 400, 1, 1, 26⟩
    (by norm_num [calculateEnergySavings])).2.1

/-- Claim C10: applying a preset whose name is not one of empty,
morning, evening, weekend is a no-op: the widgets are unchanged and no
prediction is scheduled. -/
theorem apply_preset_unknown_noop (w : WidgetState) (presetName : String)
    (h1 : presetName ≠ "empty") (h2 : presetName ≠ "morning")
    (h3 : presetName ≠ "evening") (h4 : presetName ≠ "weekend") :
    applyPreset w presetName = (w, false) := by
  simp [applyPreset, presets, h1, h2, h3, h4]

/-- Witness for C10 at the unknown preset name night: the widget state
is returned unchanged and no prediction is scheduled. -/
theorem apply_preset_unknown_noop_witness :
    applyPreset ⟨0, 0, 0, 0, false, false⟩ "night" =
      (⟨0, 0, 0, 0, false, false⟩, false) :=
  apply_preset_unknown_noop ⟨0, 0, 0, 0, false, false⟩ "night"
    (by decide) (by decide) (by decide) (by decide)

end EdgeNudge
